import Mathlib

/-!
Shallow embedding of the `search-restaurants` Deno edge function of the
AI-Agent-for-Restaurant repository.  Numbers are modelled as rationals
(`ℚ`), timestamps as integers (milliseconds since the epoch), and every
external collaborator (geocoding fetch, places fetch, details fetch,
Supabase cache reads and upserts, the Gemini call and `JSON.parse`) is an
oracle supplied as input: an `Except String α` value models an `await`
that either resolves or rejects (throws) with a message.  Each function
additionally returns the list of outbound effects it performed, in
program order, so that "adapter X was never invoked" is a statement about
the returned trace.
-/

namespace RestaurantSearch

/-- Milliseconds in 24 hours, as in `24 * 60 * 60 * 1000`. -/
def dayMs : Int := 24 * 60 * 60 * 1000

/-- A latitude/longitude pair. -/
structure Coordinates where
  lat : ℚ
  lng : ℚ
deriving DecidableEq, Repr

/-- One raw review attached to a venue (text, rating, time). -/
structure Review where
  text : String
  rating : ℚ
  time : Int
deriving DecidableEq, Repr

/-- The `restaurantData` object built at lines 162-175 of the function and
stored in the `restaurants` table (also the shape of a cached row). -/
structure VenueRecord where
  place_id : String
  name : String
  rating : Option ℚ
  price_level : Option ℚ
  formatted_address : String
  location : Coordinates
  photos : List String
  phone_number : Option String
  website : Option String
  types : List String
  reviews : List Review
  cached_at : Int
deriving DecidableEq, Repr

/-- The `aiSummary` object built at lines 284-294 and upserted into the
`restaurant_ai_summaries` table (also the shape of a cached row). -/
structure AiSummaryRecord where
  place_id : String
  rank_score : ℚ
  short_summary : String
  pros : List String
  cons : List String
  top_positive_quote : Option String
  top_negative_quote : Option String
  confidence : ℚ
  generated_at : Int
deriving DecidableEq, Repr

/-- A JSON value in a field that the code probes with `Array.isArray`:
either an array of strings or anything that is not an array (including an
omitted field, since `Array.isArray(undefined)` is `false`). -/
inductive GJson where
  | arr (xs : List String)
  | notArray
deriving DecidableEq, Repr

/-- The parsed Gemini output (`GeminiAnalysis` interface, lines 42-53). -/
structure GeminiAnalysis where
  place_id : String
  rank_score : ℚ
  short_summary : String
  pros : GJson
  cons : GJson
  dishes_to_try : Option (List String)
  matching_menu_items : Option (List String)
  top_positive_quote : Option String
  top_negative_quote : Option String
  confidence : ℚ
deriving DecidableEq, Repr

/-- The `result` object of a place-details response (`PlaceDetails`
interface, lines 21-40). -/
structure DetailsData where
  place_id : String
  name : String
  rating : Option ℚ
  price_level : Option ℚ
  formatted_address : String
  location : Coordinates
  photos : Option (List String)
  phone_number : Option String
  website : Option String
  types : List String
  reviews : Option (List Review)
deriving DecidableEq, Repr

/-- A place-details HTTP response body: provider status plus payload. -/
structure DetailsResp where
  status : String
  result : DetailsData
deriving DecidableEq, Repr

/-- One candidate of a Gemini response; `parts` is the list of
`content.parts[i].text` strings. -/
structure GeminiCandidate where
  parts : List String
deriving DecidableEq, Repr

/-- A Gemini HTTP response body. -/
structure GeminiData where
  candidates : List GeminiCandidate
deriving DecidableEq, Repr

/-- One geocoding result: formatted address and `geometry.location`. -/
structure GeoResult where
  formatted_address : String
  geometry_location : Coordinates
deriving DecidableEq, Repr

/-- A geocoding HTTP response body. -/
structure GeocodeData where
  status : String
  results : List GeoResult
deriving DecidableEq, Repr

/-- One element of `placesData.results`, together with the responses the
external world (Supabase cache, details fetch, Gemini) will give for this
specific place during stage 3.  An `Except.error` value models the
corresponding `await` rejecting (throwing). -/
structure Candidate where
  place_id : String
  name : String
  storedVenue : Except String (Option VenueRecord)
  detailsResp : Except String DetailsResp
  venueUpsertResult : Except String Unit
  storedSummary : Except String (Option AiSummaryRecord)
  geminiResp : Except String GeminiData
  summaryUpsertResult : Except String Unit
deriving Repr

/-- A places nearby-search HTTP response body. -/
structure PlacesData where
  status : String
  results : List Candidate
deriving Repr

/-- The request body (`SearchParams` interface, lines 10-18); `Option`
fields model JSON fields that may be absent, with defaults applied at the
destructuring site (line 75). -/
structure SearchParams where
  location : String
  radius : Option ℚ
  max_price : Option ℚ
  cuisine : Option String
  veg_only : Option Bool
  jain_food : Option Bool
  menu : Option (List String)
deriving Repr

/-- Errors raised by the function body; `thrown` wraps a rejection coming
from an external call, the other constructors are the `new Error(...)`
sites of the source. -/
inductive Err where
  | missingKeys
  | invalidCoordFormat
  | locationNotFound (loc : String)
  | geocodeFailed (status : String)
  | placesError (status : String)
  | thrown (msg : String)
deriving DecidableEq, Repr

/-- The `error.message` string the response body carries for each error. -/
def errMsg : Err → String
  | .missingKeys => "Missing required API keys"
  | .invalidCoordFormat => "Invalid coordinate format"
  | .locationNotFound loc =>
      "Unable to find location \"" ++ loc ++
        "\". Please try a more specific address or city name."
  | .geocodeFailed status => "Geocoding failed: " ++ status
  | .placesError status => "Places API error: " ++ status
  | .thrown msg => msg

/-- Outbound effects, in program order. -/
inductive Effect where
  | geocodeCall (address : String)
  | placesCall
  | venueCacheRead (place_id : String)
  | detailsFetch (place_id : String)
  | venueUpsert (rec : VenueRecord)
  | summaryCacheRead (place_id : String)
  | geminiCall (place_id : String) (reviewTexts : List String)
  | summaryUpsert (rec : AiSummaryRecord)
deriving DecidableEq, Repr

/-! ### Geocoder: literal-coordinate detection and parsing (lines 82-106) -/

/-- Drop a leading run of ASCII digits. -/
def dropDigits : List Char → List Char
  | c :: cs => if c.isDigit then dropDigits cs else c :: cs
  | [] => []

/-- Consume one `-?\d+\.?\d*` number; returns the rest on success. -/
def matchNum (l : List Char) : Option (List Char) :=
  let l1 := match l with
    | '-' :: r => r
    | _ => l
  match l1 with
  | c :: _ =>
    if c.isDigit then
      let r := dropDigits l1
      let r2 := match r with
        | '.' :: r3 => dropDigits r3
        | _ => r
      some r2
    else none
  | [] => none

/-- The test `/^-?\d+\.?\d*,-?\d+\.?\d*$/.test s` of line 82. -/
def coordPattern (s : String) : Bool :=
  match matchNum s.data with
  | some (',' :: r) =>
    match matchNum r with
    | some [] => true
    | _ => false
  | _ => false

/-- Numeric value of a digit list read left to right. -/
def digitsVal (l : List Char) : ℕ :=
  l.foldl (fun a c => a * 10 + (c.toNat - 48)) 0

/-- JavaScript `parseFloat`, restricted to the plain-decimal forms it can
meet here (leading whitespace, optional sign, digits, optional fraction;
trailing garbage ignored); `none` models `NaN`. -/
def parseFloatQ (s : String) : Option ℚ :=
  let l := s.data.dropWhile Char.isWhitespace
  let signed := match l with
    | '-' :: r => (true, r)
    | '+' :: r => (false, r)
    | _ => (false, l)
  let l1 := signed.2
  let ip := l1.takeWhile Char.isDigit
  let r1 := l1.dropWhile Char.isDigit
  let fp := match r1 with
    | '.' :: r2 => r2.takeWhile Char.isDigit
    | _ => []
  if ip = [] ∧ fp = [] then none
  else
    let q : ℚ := (digitsVal ip : ℚ) + (digitsVal fp : ℚ) / (10 ^ fp.length)
    some (if signed.1 then -q else q)

/-- Step 1 of the handler (lines 82-106): branch on the coordinate
pattern; parse directly on a match, otherwise call the geocoding
provider (whose response is the `geo` oracle). -/
def resolveLocation (loc : String) (geo : Except String GeocodeData) :
    List Effect × Except Err Coordinates :=
  if loc.contains ',' ∧ coordPattern loc.trim then
    match loc.splitOn "," with
    | a :: b :: _ =>
      match parseFloatQ a, parseFloatQ b with
      | some la, some lb => ([], .ok ⟨la, lb⟩)
      | _, _ => ([], .error .invalidCoordFormat)
    | _ => ([], .error .invalidCoordFormat)
  else
    ([.geocodeCall loc],
      match geo with
      | .error m => .error (.thrown m)
      | .ok d =>
        if d.status = "OK" then
          match d.results with
          | r :: _ => .ok r.geometry_location
          | [] => .error (.geocodeFailed "OK")
        else
          .error (if d.status = "ZERO_RESULTS" then .locationNotFound loc
                  else .geocodeFailed d.status))

/-! ### Stage 3 per-candidate pipeline (lines 127-338) -/

/-- Photo URL built at lines 157-159. -/
def photoUrl (key ref : String) : String :=
  "https://maps.googleapis.com/maps/api/place/photo?maxwidth=800&photo_reference="
    ++ ref ++ "&key=" ++ key

/-- The `restaurantData` built from a fresh details payload (lines
162-175). -/
def mkVenue (key : String) (now : Int) (d : DetailsData) : VenueRecord :=
  { place_id := d.place_id
    name := d.name
    rating := d.rating
    price_level := d.price_level
    formatted_address := d.formatted_address
    location := d.location
    photos := (d.photos.map (fun ps => (ps.take 3).map (photoUrl key))).getD []
    phone_number := d.phone_number
    website := d.website
    types := d.types
    reviews := d.reviews.getD []
    cached_at := now }

/-- Venue cache-or-fetch (lines 129-183): the cache read applies the
`gte('cached_at', now - 24h)` window; on a miss the details are fetched,
a non-OK details status yields `some none`-free `Option` (`.ok none`,
candidate dropped), otherwise the record is built and upserted. -/
def venueStage (key : String) (now : Int) (c : Candidate) :
    List Effect × Except Err (Option VenueRecord) :=
  match c.storedVenue with
  | .error m => ([.venueCacheRead c.place_id], .error (.thrown m))
  | .ok row =>
    let cached : Option VenueRecord :=
      match row with
      | some v => if v.cached_at ≥ now - dayMs then some v else none
      | none => none
    match cached with
    | some v => ([.venueCacheRead c.place_id], .ok (some v))
    | none =>
      match c.detailsResp with
      | .error m =>
        ([.venueCacheRead c.place_id, .detailsFetch c.place_id], .error (.thrown m))
      | .ok dr =>
        if dr.status = "OK" then
          let v := mkVenue key now dr.result
          ([.venueCacheRead c.place_id, .detailsFetch c.place_id, .venueUpsert v],
            match c.venueUpsertResult with
            | .error m => .error (.thrown m)
            | .ok _ => .ok (some v))
        else
          ([.venueCacheRead c.place_id, .detailsFetch c.place_id], .ok none)

/-- Clamping of the parsed analysis and record construction (lines
284-294): `Math.max(0, Math.min(100, rank_score))`,
`Math.max(0, Math.min(1, confidence))`, `Array.isArray` defaults. -/
def mkAiSummary (a : GeminiAnalysis) (now : Int) : AiSummaryRecord :=
  { place_id := a.place_id
    rank_score := max 0 (min 100 a.rank_score)
    short_summary := a.short_summary
    pros := match a.pros with | .arr xs => xs | .notArray => []
    cons := match a.cons with | .arr xs => xs | .notArray => []
    top_positive_quote := a.top_positive_quote
    top_negative_quote := a.top_negative_quote
    confidence := max 0 (min 1 a.confidence)
    generated_at := now }

/-- Strip every occurrence of three backticks followed by `json` and an
optional newline, as the global regex replace at line 274 does. -/
def stripJsonFence : List Char → List Char
  | '`' :: '`' :: '`' :: 'j' :: 's' :: 'o' :: 'n' :: '\n' :: rest => stripJsonFence rest
  | '`' :: '`' :: '`' :: 'j' :: 's' :: 'o' :: 'n' :: rest => stripJsonFence rest
  | c :: rest => c :: stripJsonFence rest
  | [] => []

/-- Strip every occurrence of three backticks and an optional newline, as
the second global regex replace at line 274 does. -/
def stripTickFence : List Char → List Char
  | '`' :: '`' :: '`' :: '\n' :: rest => stripTickFence rest
  | '`' :: '`' :: '`' :: rest => stripTickFence rest
  | c :: rest => c :: stripTickFence rest
  | [] => []

/-- The `cleanJson` string of line 274. -/
def cleanJson (s : String) : String :=
  (String.mk (stripTickFence (stripJsonFence s.data))).trim

/-- The `review.text && review.text.length > 20` filter plus
`slice(0, 12)` and projection to texts (lines 200-203). -/
def reviewTexts (rs : List Review) : List String :=
  ((rs.filter (fun rv => !(rv.text == "") && decide (rv.text.length > 20))).take 12).map
    (fun rv => rv.text)

/-- The Gemini call and parse block (lines 241-307).  Every failure path
inside it is caught (`geminiError` / `parseError` handlers), so it never
propagates an error: it returns the summary record if one was assigned,
`none` otherwise.  Note the upsert happens after the assignment, so an
upsert rejection still leaves the summary attached. -/
def geminiStage (parse : String → Except String GeminiAnalysis) (now : Int)
    (c : Candidate) : List Effect × Option AiSummaryRecord :=
  match c.geminiResp with
  | .error _ => ([], none)
  | .ok gd =>
    match gd.candidates with
    | [] => ([], none)
    | cand :: _ =>
      match cand.parts with
      | [] => ([], none)
      | t :: _ =>
        match parse (cleanJson t) with
        | .error _ => ([], none)
        | .ok analysis =>
          let rec0 := mkAiSummary analysis now
          ([.summaryUpsert rec0], some rec0)

/-- Summary cache-or-generate (lines 186-309): the cache read applies the
`gte('generated_at', now - 24h)` window; on a miss the Gemini block runs
only when the venue has reviews and at least one passes the length
filter. -/
def summaryStage (parse : String → Except String GeminiAnalysis) (now : Int)
    (c : Candidate) (v : VenueRecord) :
    List Effect × Except Err (Option AiSummaryRecord) :=
  match c.storedSummary with
  | .error m => ([.summaryCacheRead v.place_id], .error (.thrown m))
  | .ok row =>
    let cached : Option AiSummaryRecord :=
      match row with
      | some s => if s.generated_at ≥ now - dayMs then some s else none
      | none => none
    match cached with
    | some s => ([.summaryCacheRead v.place_id], .ok (some s))
    | none =>
      if v.reviews.length > 0 then
        let texts := reviewTexts v.reviews
        if texts.length > 0 then
          let g := geminiStage parse now c
          ([.summaryCacheRead v.place_id, .geminiCall v.place_id texts] ++ g.1, .ok g.2)
        else
          ([.summaryCacheRead v.place_id], .ok none)
      else
        ([.summaryCacheRead v.place_id], .ok none)

/-- The `ai_summary` projection of the returned object (lines 323-331). -/
structure AiSummaryOut where
  rank_score : ℚ
  short_summary : String
  pros : List String
  cons : List String
  top_positive_quote : Option String
  top_negative_quote : Option String
  confidence : ℚ
deriving DecidableEq, Repr

/-- The object returned per candidate (lines 311-332). -/
structure Restaurant where
  id : String
  place_id : String
  name : String
  rating : Option ℚ
  price_level : Option ℚ
  formatted_address : String
  location : Coordinates
  photos : List String
  phone_number : Option String
  website : Option String
  types : List String
  ai_summary : Option AiSummaryOut
deriving DecidableEq, Repr

/-- Build the returned object from the venue record and the (optional)
summary record. -/
def mkRestaurant (v : VenueRecord) (s : Option AiSummaryRecord) : Restaurant :=
  { id := v.place_id
    place_id := v.place_id
    name := v.name
    rating := v.rating
    price_level := v.price_level
    formatted_address := v.formatted_address
    location := v.location
    photos := v.photos
    phone_number := v.phone_number
    website := v.website
    types := v.types
    ai_summary := s.map (fun a =>
      { rank_score := a.rank_score
        short_summary := a.short_summary
        pros := a.pros
        cons := a.cons
        top_positive_quote := a.top_positive_quote
        top_negative_quote := a.top_negative_quote
        confidence := a.confidence }) }

/-- One candidate's processing, before the surrounding `catch` (the body
of the async arrow function, lines 128-333). -/
def processPlaceE (key : String) (parse : String → Except String GeminiAnalysis)
    (now : Int) (c : Candidate) : List Effect × Except Err (Option Restaurant) :=
  match venueStage key now c with
  | (e1, .error err) => (e1, .error err)
  | (e1, .ok none) => (e1, .ok none)
  | (e1, .ok (some v)) =>
    match summaryStage parse now c v with
    | (e2, .error err) => (e1 ++ e2, .error err)
    | (e2, .ok s) => (e1 ++ e2, .ok (some (mkRestaurant v s)))

/-- One candidate's processing with the per-candidate `catch (error)`
(lines 334-337): any thrown error becomes `null` (the candidate is
dropped), effects already performed remain. -/
def processPlace (key : String) (parse : String → Except String GeminiAnalysis)
    (now : Int) (c : Candidate) : List Effect × Option Restaurant :=
  match processPlaceE key parse now c with
  | (e, .error _) => (e, none)
  | (e, .ok r) => (e, r)

/-! ### Stage 5 scoring and sorting (lines 343-368) -/

/-- The `totalScore` accumulation of lines 345-361: each term is added
only when the corresponding value is truthy (present and nonzero). -/
def totalScore (max_price : ℚ) (r : Restaurant) : ℚ :=
  (match r.rating with
    | some x => if x = 0 then 0 else x / 5 * 50
    | none => 0) +
  (match r.ai_summary with
    | some s => if s.rank_score = 0 then 0 else s.rank_score / 100 * 30
    | none => 0) +
  (match r.price_level with
    | some p => if p = 0 then 0 else (1 - |p - max_price| / 4) * 20
    | none => 0)

/-- JavaScript `Math.round` on a (non-negative, here) rational. -/
def jsRound (q : ℚ) : Int := ⌊q + 1 / 2⌋

/-- A candidate together with its `total_score` (line 363-366). -/
structure ScoredRestaurant where
  r : Restaurant
  total_score : Int
deriving DecidableEq, Repr

/-- Map step of line 344-367. -/
def scoreRestaurant (max_price : ℚ) (r : Restaurant) : ScoredRestaurant :=
  ⟨r, jsRound (totalScore max_price r)⟩

/-- The list entering the sort, in enrichment order. -/
def scoredList (max_price : ℚ) (rs : List Restaurant) : List ScoredRestaurant :=
  rs.map (scoreRestaurant max_price)

/-- The comparator `(a, b) => b.total_score - a.total_score` of line 368:
`a` may precede `b` exactly when the comparator is non-positive. -/
def scoreDescLe (a b : ScoredRestaurant) : Bool :=
  decide (b.total_score ≤ a.total_score)

/-- Lines 343-368: score then sort.  `Array.prototype.sort` is stable
(ES2019), so it is embedded as a stable merge sort under the
comparator-induced order. -/
def rankedRestaurants (max_price : ℚ) (rs : List Restaurant) : List ScoredRestaurant :=
  (scoredList max_price rs).mergeSort scoreDescLe

/-! ### The HTTP handler (lines 56-397) -/

/-- The response body: either the success shape of lines 372-381 or the
failure shape of lines 385-395. -/
inductive RespBody where
  | success (restaurants : List ScoredRestaurant) (search_location : Coordinates)
      (total_found : ℕ)
  | failure (error : String) (restaurants : List ScoredRestaurant) (total_found : ℕ)
deriving DecidableEq, Repr

/-- An HTTP response: status code plus JSON body. -/
structure HttpResponse where
  status : ℕ
  body : RespBody
deriving DecidableEq, Repr

/-- The catch-all failure response of lines 385-395. -/
def errResponse (e : Err) : HttpResponse :=
  ⟨500, .failure (errMsg e) [] 0⟩

/-- Everything the handler consumes: configuration, request, and the
oracles for its outbound calls. -/
structure ReqEnv where
  googleApiKey : String
  geminiApiKey : String
  req : SearchParams
  geocodeResp : Except String GeocodeData
  placesResp : Except String PlacesData
  parse : String → Except String GeminiAnalysis
  now : Int

/-- The full request handler (lines 56-397): key check, location
resolution, places search with status check, `slice(0, 25)` fan-out to
per-candidate processing, `filter(Boolean)`, rank, respond; every
uncaught error becomes the 500 failure response. -/
def handleRequest (env : ReqEnv) : List Effect × HttpResponse :=
  if env.googleApiKey = "" ∨ env.geminiApiKey = "" then
    ([], errResponse .missingKeys)
  else
    let max_price : ℚ := env.req.max_price.getD 4
    match resolveLocation env.req.location env.geocodeResp with
    | (effs, .error e) => (effs, errResponse e)
    | (effs, .ok coords) =>
      match env.placesResp with
      | .error m => (effs ++ [.placesCall], errResponse (.thrown m))
      | .ok pd =>
        if pd.status = "OK" then
          let processed := (pd.results.take 25).map
            (processPlace env.googleApiKey env.parse env.now)
          let restaurants := processed.filterMap Prod.snd
          let ranked := rankedRestaurants max_price restaurants
          (effs ++ [.placesCall] ++ (processed.map Prod.fst).flatten,
            ⟨200, .success ranked coords ranked.length⟩)
        else
          (effs ++ [.placesCall], errResponse (.placesError pd.status))

/-! ### Spec-side scoring definitions (for claim C1) -/

/-- Modelled from the claim wording of C1: the spec's scoring formula,
`(rating/5 × 50) + (ai_rank_score/100 × 30, 0 if absent) + (price_fit × 20)`
with `price_fit = 1 − |price_level − max_price| / 4` and 0 if
`price_level` is absent. -/
def specTotalScore (mp : ℚ) (rating ai price : Option ℚ) : ℚ :=
  (match rating with
    | some x => x / 5 * 50
    | none => 0) +
  (match ai with
    | some s => s / 100 * 30
    | none => 0) +
  (match price with
    | some p => (1 - |p - mp| / 4) * 20
    | none => 0)

/-- The amended formula: every term is conditioned on its signal being
present and nonzero (JavaScript truthiness), and the sum is rounded. -/
def specTotalScoreAmended (mp : ℚ) (rating ai price : Option ℚ) : Int :=
  jsRound (
    (match rating with
      | some x => if x = 0 then 0 else x / 5 * 50
      | none => 0) +
    (match ai with
      | some s => if s = 0 then 0 else s / 100 * 30
      | none => 0) +
    (match price with
      | some p => if p = 0 then 0 else (1 - |p - mp| / 4) * 20
      | none => 0))

/-! ### Concrete fixtures -/

/-- A restaurant with every optional signal absent. -/
def baseRestaurant : Restaurant :=
  { id := "p1", place_id := "p1", name := "A", rating := none, price_level := none,
    formatted_address := "addr", location := ⟨0, 0⟩, photos := [], phone_number := none,
    website := none, types := [], ai_summary := none }

/-- An attached AI summary with a given rank score. -/
def aiOut (rank : ℚ) : AiSummaryOut :=
  { rank_score := rank, short_summary := "s", pros := [], cons := [],
    top_positive_quote := none, top_negative_quote := none, confidence := 1 }

/-- First worked example of the spec: rating 5, ai 80, price 2. -/
def exRestaurant1 : Restaurant :=
  { baseRestaurant with
    rating := some 5
    ai_summary := some (aiOut 80)
    price_level := some 2 }

/-- Second worked example of the spec: rating 3, no ai, price 4. -/
def exRestaurant2 : Restaurant :=
  { baseRestaurant with rating := some 3, price_level := some 4 }

/-- A cached venue with rating 5 and price level 0. -/
def vC1 : VenueRecord :=
  { place_id := "p1", name := "A", rating := some 5, price_level := some 0,
    formatted_address := "addr", location := ⟨1, 2⟩, photos := [], phone_number := none,
    website := none, types := [], reviews := [], cached_at := 1000 }

/-- A cached AI summary with rank score 85. -/
def sC1 : AiSummaryRecord :=
  { place_id := "p1", rank_score := 85, short_summary := "s", pros := [], cons := [],
    top_positive_quote := none, top_negative_quote := none, confidence := 1,
    generated_at := 1000 }

/-- A parse oracle that always fails. -/
def noParse : String → Except String GeminiAnalysis := fun _ => .error "parse"

/-- A candidate that hits both caches. -/
def candC1 : Candidate :=
  { place_id := "p1", name := "A", storedVenue := .ok (some vC1),
    detailsResp := .error "unused", venueUpsertResult := .ok (),
    storedSummary := .ok (some sC1), geminiResp := .error "unused",
    summaryUpsertResult := .ok () }

/-- A request for coordinates `1,2` with `max_price := 2`. -/
def reqC1 : SearchParams :=
  { location := "1,2", radius := none, max_price := some 2, cuisine := none,
    veg_only := none, jain_food := none, menu := none }

/-- A full request environment whose single candidate hits both caches. -/
def envC1 : ReqEnv :=
  { googleApiKey := "g", geminiApiKey := "m", req := reqC1,
    geocodeResp := .error "unused", placesResp := .ok ⟨"OK", [candC1]⟩,
    parse := noParse, now := 2000 }

/-! ### Claim C1 -/

/-- Claim C1, counterexample: in a successful response the surviving
candidate with rating 5, ai_rank_score 85, price_level 0 under
max_price 2 gets total_score 76, while the spec formula yields
50 + 25.5 + 10 = 85.5; the stored score is both rounded and missing the
price-fit term, refuting the claimed equation. -/
theorem claim_C1_counterexample :
    (handleRequest envC1).2 =
      ⟨200, .success [⟨mkRestaurant vC1 (some sC1), 76⟩] ⟨1, 2⟩ 1⟩ ∧
    specTotalScore 2 (some 5) (some 85) (some 0) = 171 / 2 ∧
    ¬ ((76 : ℚ) = 171 / 2) := by
  refine ⟨by with_unfolding_all decide, by with_unfolding_all decide, by norm_num⟩

/-- Claim C1 (amended): total_score is the JavaScript rounding of the
three-term sum in which each term is counted only when its signal is
present and nonzero (so price_level 0 contributes nothing); the two
worked examples 94 and 35 hold, and a candidate with all three signals
absent scores 0 rather than erroring. -/
theorem claim_C1_amended :
    (∀ (mp : ℚ) (r : Restaurant),
        (scoreRestaurant mp r).total_score =
          specTotalScoreAmended mp r.rating
            (r.ai_summary.map AiSummaryOut.rank_score) r.price_level) ∧
    (scoreRestaurant 2 exRestaurant1).total_score = 94 ∧
    (scoreRestaurant 1 exRestaurant2).total_score = 35 ∧
    (∀ mp : ℚ, (scoreRestaurant mp baseRestaurant).total_score = 0) := by
  refine ⟨fun mp r => ?_, by with_unfolding_all decide, by with_unfolding_all decide,
    fun mp => by with_unfolding_all rfl⟩
  rcases r with ⟨id, pid, name, rating, price, addr, loc, ph, pn, w, ty, ai⟩
  cases rating <;> cases price <;> cases ai <;> rfl

/-! ### Claim C10 -/

/-- Claim C10: a price_level of 0 is treated exactly like an absent price
level by the scoring step, so the price-fit term contributes nothing even
for max_price 0, where the formula `1 − |0 − 0|/4` would award the full
20 points. -/
theorem claim_C10 :
    (∀ (mp : ℚ) (r : Restaurant),
        totalScore mp { r with price_level := some 0 } =
          totalScore mp { r with price_level := none }) ∧
    totalScore 0 { baseRestaurant with price_level := some 0 } = 0 ∧
    specTotalScore 0 none none (some 0) = 20 := by
  exact ⟨fun mp r => rfl, by with_unfolding_all decide, by with_unfolding_all decide⟩

/-! ### Helper lemmas on effect traces -/

/-- The location-resolution stage emits at most one effect: the geocoding
call with the original location string. -/
lemma mem_resolveLocation_effects {loc : String} {g : Except String GeocodeData}
    {e : Effect} (h : e ∈ (resolveLocation loc g).1) : e = .geocodeCall loc := by
  unfold resolveLocation at h
  split at h
  · split at h
    · split at h <;> simp at h
    · simp at h
  · simpa using h

/-- The summary stage never performs a details fetch. -/
lemma detailsFetch_not_mem_summaryStage (parse : String → Except String GeminiAnalysis)
    (now : Int) (c : Candidate) (v : VenueRecord) (pid : String) :
    Effect.detailsFetch pid ∉ (summaryStage parse now c v).1 := by
  unfold summaryStage geminiStage
  repeat' split
  all_goals intro hmem
  all_goals (by_cases hrt : 0 < (reviewTexts v.reviews).length <;> simp [hrt] at hmem)

/-! ### Claim C3 -/

/-- Claim C3 (amended): a malformed coordinate-like string (it contains a
comma but fails the strict number,number pattern) is handed to the
geocoding provider as an address — a lookup IS attempted — and the
request can only fail with a geocoding-branch error, never with the
InvalidCoordinates error of the direct-parse branch. -/
theorem claim_C3_amended (loc : String) (g : Except String GeocodeData)
    (h1 : loc.contains ',' = true) (h2 : coordPattern loc.trim = false) :
    (resolveLocation loc g).1 = [.geocodeCall loc] ∧
    ∀ e, (resolveLocation loc g).2 = .error e → e ≠ .invalidCoordFormat := by
  have hcond : ¬ (loc.contains ',' = true ∧ coordPattern loc.trim = true) := by
    simp [h2]
  unfold resolveLocation
  rw [if_neg hcond]
  refine ⟨rfl, ?_⟩
  intro e he
  match g with
  | .error m =>
    simp only at he
    cases he
    simp
  | .ok d =>
    simp only at he
    split at he
    · split at he
      · exact absurd he (by simp)
      · cases he; simp
    · cases he
      split <;> simp

/-- Claim C3, counterexample: on the malformed coordinate-like string
"abc,def" the code does issue a geocoding provider lookup, and with a
successful provider response the request resolves to the provider's
coordinates instead of failing with InvalidCoordinates. -/
theorem claim_C3_counterexample :
    resolveLocation "abc,def" (.ok ⟨"OK", [⟨"X", ⟨10, 20⟩⟩]⟩) =
      ([.geocodeCall "abc,def"], .ok ⟨10, 20⟩) := by
  with_unfolding_all rfl

/-- Witness for the amended claim C3 at the concrete input "abc,def". -/
theorem claim_C3_amended_witness :
    (resolveLocation "abc,def" (.ok ⟨"ZERO_RESULTS", []⟩)).1 =
      [.geocodeCall "abc,def"] ∧
    ∀ e, (resolveLocation "abc,def" (.ok ⟨"ZERO_RESULTS", []⟩)).2 = .error e →
      e ≠ .invalidCoordFormat :=
  claim_C3_amended "abc,def" (.ok ⟨"ZERO_RESULTS", []⟩)
    (by with_unfolding_all decide) (by with_unfolding_all decide)

/-! ### Claim C4 -/

/-- Claim C4: a venue cached less than 24 hours ago is served from the
cache — the stage performs only the cache read, returns the cached
record, and no details fetch occurs anywhere in the candidate's
processing — while a venue cached exactly 24h + 1s ago misses the
window, so the details are re-fetched and the rebuilt record is
re-upserted. -/
theorem claim_C4 :
    (∀ (key : String) (parse : String → Except String GeminiAnalysis)
        (now : Int) (c : Candidate) (v : VenueRecord),
      c.storedVenue = .ok (some v) → now - v.cached_at < dayMs →
      venueStage key now c = ([.venueCacheRead c.place_id], .ok (some v)) ∧
      ∀ pid, Effect.detailsFetch pid ∉ (processPlace key parse now c).1) ∧
    (∀ (key : String) (now : Int) (c : Candidate) (v : VenueRecord) (dr : DetailsResp),
      c.storedVenue = .ok (some v) → v.cached_at = now - dayMs - 1000 →
      c.detailsResp = .ok dr → dr.status = "OK" → c.venueUpsertResult = .ok () →
      venueStage key now c =
        ([.venueCacheRead c.place_id, .detailsFetch c.place_id,
          .venueUpsert (mkVenue key now dr.result)],
          .ok (some (mkVenue key now dr.result)))) := by
  constructor
  · intro key parse now c v hsv hfresh
    have hv : venueStage key now c = ([.venueCacheRead c.place_id], .ok (some v)) := by
      unfold venueStage
      rw [hsv]
      simp only
      rw [if_pos (by omega)]
    refine ⟨hv, fun pid => ?_⟩
    have hns := detailsFetch_not_mem_summaryStage parse now c v pid
    unfold processPlace processPlaceE
    rw [hv]
    dsimp only
    rcases hss : summaryStage parse now c v with ⟨e2, r2⟩
    rw [hss] at hns
    cases r2 <;> dsimp only <;> intro hmem <;>
      rcases List.mem_append.mp hmem with h | h
    · simp at h
    · exact hns h
    · simp at h
    · exact hns h
  · intro key now c v dr hsv hstale hdet hst hup
    unfold venueStage
    rw [hsv]
    simp only
    rw [if_neg (by omega), hdet]
    simp only
    rw [if_pos hst, hup]

/-- A details payload used by concrete fixtures. -/
def dDet : DetailsData :=
  { place_id := "p1", name := "A", rating := some 4, price_level := some 1,
    formatted_address := "addr", location := ⟨1, 2⟩, photos := none,
    phone_number := none, website := none, types := [], reviews := none }

/-- The venue record of `vC1`, timestamped exactly 24h + 1s before
`now = 2000`. -/
def vStale : VenueRecord := { vC1 with cached_at := 2000 - dayMs - 1000 }

/-- A candidate whose cached venue is exactly 24h + 1s old and whose
details fetch succeeds. -/
def candStale : Candidate :=
  { place_id := "p1", name := "A", storedVenue := .ok (some vStale),
    detailsResp := .ok ⟨"OK", dDet⟩, venueUpsertResult := .ok (),
    storedSummary := .ok none, geminiResp := .error "unused",
    summaryUpsertResult := .ok () }

/-- Witness for claim C4: both the fresh-cache branch and the
24h + 1s-stale branch, at concrete inputs. -/
theorem claim_C4_witness :
    (venueStage "g" 2000 candC1 = ([.venueCacheRead "p1"], .ok (some vC1)) ∧
      ∀ pid, Effect.detailsFetch pid ∉ (processPlace "g" noParse 2000 candC1).1) ∧
    venueStage "g" 2000 candStale =
      ([.venueCacheRead "p1", .detailsFetch "p1",
        .venueUpsert (mkVenue "g" 2000 dDet)],
        .ok (some (mkVenue "g" 2000 dDet))) :=
  ⟨claim_C4.1 "g" noParse 2000 candC1 vC1 rfl (by with_unfolding_all decide),
   claim_C4.2 "g" 2000 candStale vStale ⟨"OK", dDet⟩ rfl
     (by with_unfolding_all decide) rfl rfl rfl⟩

/-! ### Claim C8 -/

/-- Claim C8: when the places nearby-search provider reports a non-OK
status (with credentials present and the location already resolved), the
whole request aborts with HTTP 500 and the body carries the error string,
an empty restaurants list and total_found 0; the effect trace contains no
per-venue enrichment work — at most the geocoding call and the places
call. -/
theorem claim_C8 (env : ReqEnv) (pd : PlacesData) (coords : Coordinates)
    (hg : ¬ env.googleApiKey = "") (hm : ¬ env.geminiApiKey = "")
    (hres : (resolveLocation env.req.location env.geocodeResp).2 = .ok coords)
    (hp : env.placesResp = .ok pd) (hst : ¬ pd.status = "OK") :
    (handleRequest env).2.status = 500 ∧
    (handleRequest env).2.body =
      .failure ("Places API error: " ++ pd.status) [] 0 ∧
    ∀ e ∈ (handleRequest env).1,
      e = .geocodeCall env.req.location ∨ e = .placesCall := by
  have hro : resolveLocation env.req.location env.geocodeResp =
      ((resolveLocation env.req.location env.geocodeResp).1, .ok coords) := by
    rw [← hres]
  unfold handleRequest
  rw [if_neg (by simp [hg, hm]), hro, hp]
  simp only
  rw [if_neg hst]
  refine ⟨rfl, rfl, ?_⟩
  intro e he
  rcases List.mem_append.mp he with h | h
  · exact Or.inl (mem_resolveLocation_effects h)
  · simp at h
    exact Or.inr h

/-- An environment whose places search is denied by the provider. -/
def envC8 : ReqEnv := { envC1 with placesResp := .ok ⟨"REQUEST_DENIED", []⟩ }

/-- Witness for claim C8 at a concrete environment. -/
theorem claim_C8_witness :
    (handleRequest envC8).2.status = 500 ∧
    (handleRequest envC8).2.body =
      .failure ("Places API error: " ++ "REQUEST_DENIED") [] 0 ∧
    ∀ e ∈ (handleRequest envC8).1,
      e = .geocodeCall envC8.req.location ∨ e = .placesCall :=
  claim_C8 envC8 ⟨"REQUEST_DENIED", []⟩ ⟨1, 2⟩
    (by with_unfolding_all decide) (by with_unfolding_all decide)
    (by with_unfolding_all rfl) rfl (by with_unfolding_all decide)

/-- Every effect of the venue stage is the cache read, the details fetch
or a venue upsert. -/
lemma mem_venueStage_effects {key : String} {now : Int} {c : Candidate} {e : Effect}
    (h : e ∈ (venueStage key now c).1) :
    e = .venueCacheRead c.place_id ∨ e = .detailsFetch c.place_id ∨
      ∃ v, e = .venueUpsert v := by
  unfold venueStage at h
  repeat' split at h
  all_goals simp at h
  all_goals tauto

/-- A summary upsert appearing in the summary stage's trace carries a
record built by `mkAiSummary` from some parsed analysis at the current
time. -/
lemma mem_summaryStage_summaryUpsert {parse : String → Except String GeminiAnalysis}
    {now : Int} {c : Candidate} {v : VenueRecord} {rec : AiSummaryRecord}
    (h : Effect.summaryUpsert rec ∈ (summaryStage parse now c v).1) :
    ∃ a, rec = mkAiSummary a now := by
  unfold summaryStage geminiStage at h
  repeat' split at h
  all_goals (by_cases hrt : 0 < (reviewTexts v.reviews).length <;> simp [hrt] at h)
  all_goals exact ⟨_, h⟩

/-- A summary upsert appearing anywhere in a candidate's trace carries a
record built by `mkAiSummary` from some parsed analysis. -/
lemma mem_processPlace_summaryUpsert {key : String}
    {parse : String → Except String GeminiAnalysis} {now : Int} {c : Candidate}
    {rec : AiSummaryRecord}
    (h : Effect.summaryUpsert rec ∈ (processPlace key parse now c).1) :
    ∃ a, rec = mkAiSummary a now := by
  unfold processPlace processPlaceE at h
  rcases hvs : venueStage key now c with ⟨e1, r1⟩
  rw [hvs] at h
  have hv1 : ∀ e ∈ e1, e = Effect.venueCacheRead c.place_id ∨
      e = Effect.detailsFetch c.place_id ∨ ∃ v, e = Effect.venueUpsert v := by
    intro e he
    exact mem_venueStage_effects (by rw [hvs]; exact he)
  match r1 with
  | .error m =>
    dsimp only at h
    rcases hv1 _ h with h1 | h1 | ⟨v, h1⟩ <;> simp at h1
  | .ok none =>
    dsimp only at h
    rcases hv1 _ h with h1 | h1 | ⟨v, h1⟩ <;> simp at h1
  | .ok (some v) =>
    dsimp only at h
    rcases hss : summaryStage parse now c v with ⟨e2, r2⟩
    rw [hss] at h
    have hs2 : Effect.summaryUpsert rec ∈ e2 → ∃ a, rec = mkAiSummary a now := by
      intro he
      exact mem_summaryStage_summaryUpsert (by rw [hss]; exact he)
    cases r2 <;> dsimp only at h <;> rcases List.mem_append.mp h with h1 | h1
    · rcases hv1 _ h1 with h2 | h2 | ⟨w, h2⟩ <;> simp at h2
    · exact hs2 h1
    · rcases hv1 _ h1 with h2 | h2 | ⟨w, h2⟩ <;> simp at h2
    · exact hs2 h1

/-! ### Claim C5 -/

/-- Claim C5: every AI-summary record that reaches the cache store's
upsert has rank_score clamped into [0, 100] and confidence clamped into
[0, 1]; pros and cons default to the empty list whenever the generator
omitted them or returned a non-array value, and an out-of-range
rank_score of 150 is stored as 100. -/
theorem claim_C5 :
    (∀ (key : String) (parse : String → Except String GeminiAnalysis) (now : Int)
        (c : Candidate) (rec : AiSummaryRecord),
      Effect.summaryUpsert rec ∈ (processPlace key parse now c).1 →
      0 ≤ rec.rank_score ∧ rec.rank_score ≤ 100 ∧
        0 ≤ rec.confidence ∧ rec.confidence ≤ 1) ∧
    (∀ (a : GeminiAnalysis) (now : Int),
      (a.pros = .notArray → (mkAiSummary a now).pros = []) ∧
      (a.cons = .notArray → (mkAiSummary a now).cons = []) ∧
      (a.rank_score = 150 → (mkAiSummary a now).rank_score = 100)) := by
  constructor
  · intro key parse now c rec h
    obtain ⟨a, rfl⟩ := mem_processPlace_summaryUpsert h
    refine ⟨le_max_left _ _, max_le (by norm_num) (min_le_left _ _),
      le_max_left _ _, max_le (by norm_num) (min_le_left _ _)⟩
  · intro a now
    refine ⟨fun h => by simp [mkAiSummary, h], fun h => by simp [mkAiSummary, h],
      fun h => ?_⟩
    simp only [mkAiSummary, h]
    norm_num

/-- A review long enough to pass the 20-character filter. -/
def longReview : Review :=
  { text := "This place is absolutely wonderful", rating := 5, time := 0 }

/-- A details payload carrying one qualifying review. -/
def dDet2 : DetailsData := { dDet with reviews := some [longReview] }

/-- A parsed analysis with out-of-range rank_score and confidence and a
non-array pros field. -/
def gAna : GeminiAnalysis :=
  { place_id := "p1", rank_score := 150, short_summary := "s", pros := .notArray,
    cons := .arr ["c"], dishes_to_try := some ["Dish A", "Dish B"],
    matching_menu_items := some ["Dish A"], top_positive_quote := none,
    top_negative_quote := none, confidence := 2 }

/-- A parse oracle that always returns `gAna`. -/
def okParse : String → Except String GeminiAnalysis := fun _ => .ok gAna

/-- A candidate that misses both caches, fetches details successfully and
receives a parsable Gemini response. -/
def candGem : Candidate :=
  { place_id := "p1", name := "A", storedVenue := .ok none,
    detailsResp := .ok ⟨"OK", dDet2⟩, venueUpsertResult := .ok (),
    storedSummary := .ok none, geminiResp := .ok ⟨[⟨["txt"]⟩]⟩,
    summaryUpsertResult := .ok () }

set_option maxRecDepth 100000 in
/-- Witness for claim C5: the summary record upserted while processing
`candGem` satisfies the clamping bounds, its non-array pros field is
stored as the empty list, and its rank_score 150 is stored as 100. -/
theorem claim_C5_witness :
    (0 ≤ (mkAiSummary gAna 2000).rank_score ∧
      (mkAiSummary gAna 2000).rank_score ≤ 100 ∧
      0 ≤ (mkAiSummary gAna 2000).confidence ∧
      (mkAiSummary gAna 2000).confidence ≤ 1) ∧
    (mkAiSummary gAna 2000).pros = [] ∧
    (mkAiSummary gAna 2000).rank_score = 100 :=
  ⟨claim_C5.1 "g" okParse 2000 candGem (mkAiSummary gAna 2000)
      (by with_unfolding_all decide),
    (claim_C5.2 gAna 2000).1 rfl,
    (claim_C5.2 gAna 2000).2.2 rfl⟩

/-! ### Claim C9 -/

/-- Analyses differing only in the dishes fields. -/
def gAnaDishes : GeminiAnalysis :=
  { gAna with dishes_to_try := some [], matching_menu_items := some [] }

/-- Claim C9, counterexample: two parsed analyses that differ in their
dishes_to_try and matching_menu_items lists produce identical persisted
AiSummaryRecords — the record built and upserted at lines 284-298 simply
has no such fields, so they cannot be "persisted together with the other
fields". -/
theorem claim_C9_counterexample :
    mkAiSummary gAna 2000 = mkAiSummary gAnaDishes 2000 ∧
    ¬ (gAna.dishes_to_try = gAnaDishes.dishes_to_try) ∧
    ¬ (gAna.matching_menu_items = gAnaDishes.matching_menu_items) := by
  refine ⟨rfl, by with_unfolding_all decide, by with_unfolding_all decide⟩

/-- Claim C9 (amended): the persisted record keeps place_id, clamped
rank_score, short_summary, pros, cons, the two quotes, clamped confidence
and the generation timestamp — but not dishes_to_try or
matching_menu_items: the record is invariant under arbitrary changes to
those two fields of the parsed output. -/
theorem claim_C9_amended :
    (∀ (a : GeminiAnalysis) (now : Int) (d m : Option (List String)),
      mkAiSummary { a with dishes_to_try := d, matching_menu_items := m } now =
        mkAiSummary a now) ∧
    (∀ (a : GeminiAnalysis) (now : Int),
      (mkAiSummary a now).place_id = a.place_id ∧
      (mkAiSummary a now).short_summary = a.short_summary ∧
      (mkAiSummary a now).top_positive_quote = a.top_positive_quote ∧
      (mkAiSummary a now).top_negative_quote = a.top_negative_quote ∧
      (mkAiSummary a now).generated_at = now) :=
  ⟨fun a now d m => rfl, fun a now => ⟨rfl, rfl, rfl, rfl, rfl⟩⟩

/-! ### Claim C7 -/

/-- When no review passes the length filter, the summary stage makes no
Gemini call, and with an empty summary-cache row it settles on no
summary. -/
lemma summaryStage_no_qualifying {parse : String → Except String GeminiAnalysis}
    {now : Int} {c : Candidate} {v : VenueRecord}
    (hrt : reviewTexts v.reviews = []) :
    (∀ pid ts, Effect.geminiCall pid ts ∉ (summaryStage parse now c v).1) ∧
    ((c.storedSummary = .ok none ∨
        ∃ s, c.storedSummary = .ok (some s) ∧ s.generated_at < now - dayMs) →
      summaryStage parse now c v = ([.summaryCacheRead v.place_id], .ok none)) := by
  constructor
  · intro pid ts
    unfold summaryStage
    repeat' split
    all_goals intro hmem
    all_goals simp [hrt] at hmem
  · intro hmiss
    unfold summaryStage
    rcases hmiss with hnone | ⟨s, hsome, hstale⟩
    · rw [hnone]
      simp [hrt]
    · rw [hsome]
      simp only
      rw [if_neg (by omega)]
      simp [hrt]

/-- Claim C7 (amended): for a candidate whose venue stage succeeds with a
record all of whose reviews fail the length filter, the summarization
adapter is never invoked, and when additionally no fresh cached summary
exists — no stored row at all, or a row older than the 24-hour window —
the candidate appears in the results with ai_summary absent. -/
theorem claim_C7_amended (key : String) (parse : String → Except String GeminiAnalysis)
    (now : Int) (c : Candidate) (v : VenueRecord) (e1 : List Effect)
    (hv : venueStage key now c = (e1, .ok (some v)))
    (hshort : ∀ rv ∈ v.reviews, ¬ (rv.text ≠ "" ∧ 20 < rv.text.length)) :
    (∀ pid ts, Effect.geminiCall pid ts ∉ (processPlace key parse now c).1) ∧
    ((c.storedSummary = .ok none ∨
        ∃ s, c.storedSummary = .ok (some s) ∧ s.generated_at < now - dayMs) →
      (processPlace key parse now c).2 = some (mkRestaurant v none)) := by
  have hrt : reviewTexts v.reviews = [] := by
    unfold reviewTexts
    have hf : v.reviews.filter
        (fun rv => !(rv.text == "") && decide (rv.text.length > 20)) = [] := by
      rw [List.filter_eq_nil_iff]
      intro rv hm
      have := hshort rv hm
      simp only [Bool.and_eq_true, Bool.not_eq_true', beq_eq_false_iff_ne,
        decide_eq_true_eq]
      tauto
    rw [hf]
    rfl
  obtain ⟨hnc, hsel⟩ := @summaryStage_no_qualifying parse now c v hrt
  constructor
  · intro pid ts
    unfold processPlace processPlaceE
    rw [hv]
    dsimp only
    rcases hss : summaryStage parse now c v with ⟨e2, r2⟩
    have hnc2 := hnc pid ts
    rw [hss] at hnc2
    cases r2 <;> dsimp only <;> intro hmem <;>
      rcases List.mem_append.mp hmem with h | h
    · rcases mem_venueStage_effects (by rw [hv]; exact h) with h2 | h2 | ⟨w, h2⟩ <;>
        simp at h2
    · exact hnc2 h
    · rcases mem_venueStage_effects (by rw [hv]; exact h) with h2 | h2 | ⟨w, h2⟩ <;>
        simp at h2
    · exact hnc2 h
  · intro hmiss
    unfold processPlace processPlaceE
    rw [hv]
    dsimp only
    rw [hsel hmiss]

/-- A review too short to pass the 20-character filter. -/
def shortReview : Review := { text := "short", rating := 4, time := 0 }

/-- A details payload whose only review is too short. -/
def dDetShort : DetailsData := { dDet with reviews := some [shortReview] }

/-- A candidate whose fetched venue has only the short review but whose
summary cache holds a fresh AI summary. -/
def candC7 : Candidate :=
  { place_id := "p1", name := "A", storedVenue := .ok none,
    detailsResp := .ok ⟨"OK", dDetShort⟩, venueUpsertResult := .ok (),
    storedSummary := .ok (some sC1), geminiResp := .error "unused",
    summaryUpsertResult := .ok () }

/-- Claim C7, counterexample: a venue all of whose fetched reviews fail
the length filter can still appear in the results WITH an ai_summary —
the fresh cached summary is attached — so "appears with ai_summary
absent" does not hold as stated. -/
theorem claim_C7_counterexample :
    reviewTexts (mkVenue "g" 2000 dDetShort).reviews = [] ∧
    (processPlace "g" noParse 2000 candC7).2 =
      some (mkRestaurant (mkVenue "g" 2000 dDetShort) (some sC1)) ∧
    (mkRestaurant (mkVenue "g" 2000 dDetShort) (some sC1)).ai_summary =
      some ⟨85, "s", [], [], none, none, 1⟩ := by
  refine ⟨by with_unfolding_all rfl, by with_unfolding_all rfl,
    by with_unfolding_all rfl⟩

/-- The candidate of `candC7` with an empty summary cache. -/
def candC7b : Candidate := { candC7 with storedSummary := .ok none }

/-- A cached summary row timestamped exactly 24h + 1s before
`now = 2000`, hence outside the freshness window. -/
def sStale : AiSummaryRecord := { sC1 with generated_at := 2000 - dayMs - 1000 }

/-- The candidate of `candC7` with a stale cached summary row. -/
def candC7c : Candidate := { candC7 with storedSummary := .ok (some sStale) }

/-- Witness for the amended claim C7 at concrete candidates: no Gemini
call, and ai_summary absent both when the summary cache has no row and
when it holds only a stale row. -/
theorem claim_C7_amended_witness :
    Effect.geminiCall "p1" [] ∉ (processPlace "g" noParse 2000 candC7b).1 ∧
    (processPlace "g" noParse 2000 candC7b).2 =
      some (mkRestaurant (mkVenue "g" 2000 dDetShort) none) ∧
    (processPlace "g" noParse 2000 candC7c).2 =
      some (mkRestaurant (mkVenue "g" 2000 dDetShort) none) :=
  ⟨(claim_C7_amended "g" noParse 2000 candC7b (mkVenue "g" 2000 dDetShort)
      [.venueCacheRead "p1", .detailsFetch "p1",
        .venueUpsert (mkVenue "g" 2000 dDetShort)]
      (by with_unfolding_all rfl) (by with_unfolding_all decide)).1 "p1" [],
   (claim_C7_amended "g" noParse 2000 candC7b (mkVenue "g" 2000 dDetShort)
      [.venueCacheRead "p1", .detailsFetch "p1",
        .venueUpsert (mkVenue "g" 2000 dDetShort)]
      (by with_unfolding_all rfl) (by with_unfolding_all decide)).2 (Or.inl rfl),
   (claim_C7_amended "g" noParse 2000 candC7c (mkVenue "g" 2000 dDetShort)
      [.venueCacheRead "p1", .detailsFetch "p1",
        .venueUpsert (mkVenue "g" 2000 dDetShort)]
      (by with_unfolding_all rfl) (by with_unfolding_all decide)).2
     (Or.inr ⟨sStale, rfl, by with_unfolding_all decide⟩)⟩

/-! ### Claim C6 -/

/-- The comparator order is transitive. -/
lemma scoreDescLe_trans : ∀ (a b c : ScoredRestaurant),
    scoreDescLe a b → scoreDescLe b c → scoreDescLe a c := by
  intro a b c hab hbc
  simp only [scoreDescLe, decide_eq_true_eq] at *
  omega

/-- The comparator order is total. -/
lemma scoreDescLe_total : ∀ (a b : ScoredRestaurant),
    scoreDescLe a b || scoreDescLe b a := by
  intro a b
  simp only [scoreDescLe, Bool.or_eq_true, decide_eq_true_eq]
  omega

/-- The ranked list is sorted in non-increasing total_score order. -/
lemma rankedRestaurants_pairwise (mp : ℚ) (rs : List Restaurant) :
    (rankedRestaurants mp rs).Pairwise
      (fun a b => b.total_score ≤ a.total_score) := by
  have h := List.sorted_mergeSort scoreDescLe_trans scoreDescLe_total
    (scoredList mp rs)
  exact h.imp (fun hab => by simpa [scoreDescLe] using hab)

/-- Stability: for every score value, the ranked list restricted to that
score equals the pre-sort enrichment-order list restricted to it. -/
lemma rankedRestaurants_filter_eq (mp : ℚ) (rs : List Restaurant) (s : Int) :
    (rankedRestaurants mp rs).filter (fun x => x.total_score == s) =
      (scoredList mp rs).filter (fun x => x.total_score == s) := by
  set p : ScoredRestaurant → Bool := fun x => x.total_score == s with hp
  have hsub : List.Sublist ((scoredList mp rs).filter p) (rankedRestaurants mp rs) := by
    apply List.sublist_mergeSort scoreDescLe_trans scoreDescLe_total
    · apply List.pairwise_of_forall_mem_list
      intro a ha b hb
      have ha2 := (List.mem_filter.mp ha).2
      have hb2 := (List.mem_filter.mp hb).2
      simp only [hp, beq_iff_eq] at ha2 hb2
      simp [scoreDescLe, ha2, hb2]
    · exact List.filter_sublist _
  have hsub2 : List.Sublist (((scoredList mp rs).filter p).filter p)
      ((rankedRestaurants mp rs).filter p) := hsub.filter p
  rw [List.filter_eq_self.mpr (fun a ha => (List.mem_filter.mp ha).2)] at hsub2
  have hperm : List.Perm ((rankedRestaurants mp rs).filter p)
      ((scoredList mp rs).filter p) :=
    (List.mergeSort_perm (scoredList mp rs) scoreDescLe).filter p
  exact (hsub2.eq_of_length hperm.length_eq.symm).symm

/-- Claim C6: the ranked list is sorted in descending order of
total_score and the sort is stable — for each score value the candidates
keep the relative order of the enrichment stage — and every successful
response body carries such a descending-sorted list. -/
theorem claim_C6 :
    (∀ (mp : ℚ) (rs : List Restaurant),
      (rankedRestaurants mp rs).Pairwise
        (fun a b => b.total_score ≤ a.total_score) ∧
      ∀ s : Int,
        (rankedRestaurants mp rs).filter (fun x => x.total_score == s) =
          (scoredList mp rs).filter (fun x => x.total_score == s)) ∧
    (∀ (env : ReqEnv) (l : List ScoredRestaurant) (sl : Coordinates) (tf : ℕ),
      (handleRequest env).2.body = .success l sl tf →
      l.Pairwise (fun a b => b.total_score ≤ a.total_score)) := by
  refine ⟨fun mp rs => ⟨rankedRestaurants_pairwise mp rs,
    fun s => rankedRestaurants_filter_eq mp rs s⟩, ?_⟩
  intro env l sl tf h
  unfold handleRequest at h
  split at h
  · simp [errResponse] at h
  · split at h
    · simp [errResponse] at h
    · split at h
      · simp [errResponse] at h
      · split at h
        · simp at h
          rw [← h.1]
          apply rankedRestaurants_pairwise
        · simp [errResponse] at h

/-- Witness for claim C6: the success response of `envC1` carries a
descending-sorted list. -/
theorem claim_C6_witness :
    [(⟨mkRestaurant vC1 (some sC1), 76⟩ : ScoredRestaurant)].Pairwise
      (fun a b => b.total_score ≤ a.total_score) :=
  claim_C6.2 envC1 [⟨mkRestaurant vC1 (some sC1), 76⟩] ⟨1, 2⟩ 1
    (by with_unfolding_all rfl)

/-! ### Claim C2 -/

/-- Claim C2: once the location is resolved and the places search
succeeds, the request always returns a 200 success response whose
restaurant list is the ranked per-candidate fan-out — no stage-3 failure
of any candidate can fail the request; one candidate's outcome only adds
or removes its own entry (the other candidates' entries are computed from
their own slice of the world and are unchanged); a rejected venue-cache
read or a non-success details status drops only that candidate; a
summary stage that settles on no summary leaves the candidate in the
results with ai_summary absent; and a rejected Gemini call or an
unparsable Gemini payload makes the Gemini block yield no summary rather
than an error. -/
theorem claim_C2 :
    (∀ (env : ReqEnv) (pd : PlacesData) (coords : Coordinates),
      ¬ env.googleApiKey = "" → ¬ env.geminiApiKey = "" →
      (resolveLocation env.req.location env.geocodeResp).2 = .ok coords →
      env.placesResp = .ok pd → pd.status = "OK" →
      (handleRequest env).2.status = 200 ∧
      (handleRequest env).2.body =
        .success
          (rankedRestaurants (env.req.max_price.getD 4)
            (((pd.results.take 25).map
              (processPlace env.googleApiKey env.parse env.now)).filterMap Prod.snd))
          coords
          (rankedRestaurants (env.req.max_price.getD 4)
            (((pd.results.take 25).map
              (processPlace env.googleApiKey env.parse env.now)).filterMap
                Prod.snd)).length) ∧
    (∀ (key : String) (parse : String → Except String GeminiAnalysis) (now : Int)
        (l1 l2 : List Candidate) (c : Candidate),
      ((processPlace key parse now c).2 = none →
        ((l1 ++ c :: l2).map (processPlace key parse now)).filterMap Prod.snd =
          ((l1 ++ l2).map (processPlace key parse now)).filterMap Prod.snd) ∧
      (∀ r, (processPlace key parse now c).2 = some r →
        ((l1 ++ c :: l2).map (processPlace key parse now)).filterMap Prod.snd =
          (l1.map (processPlace key parse now)).filterMap Prod.snd ++
            r :: (l2.map (processPlace key parse now)).filterMap Prod.snd)) ∧
    (∀ (key : String) (parse : String → Except String GeminiAnalysis) (now : Int)
        (c : Candidate) (m : String),
      c.storedVenue = .error m → (processPlace key parse now c).2 = none) ∧
    (∀ (key : String) (parse : String → Except String GeminiAnalysis) (now : Int)
        (c : Candidate) (dr : DetailsResp),
      c.storedVenue = .ok none → c.detailsResp = .ok dr → ¬ dr.status = "OK" →
      (processPlace key parse now c).2 = none) ∧
    (∀ (key : String) (parse : String → Except String GeminiAnalysis) (now : Int)
        (c : Candidate) (v : VenueRecord) (e1 e2 : List Effect),
      venueStage key now c = (e1, .ok (some v)) →
      summaryStage parse now c v = (e2, .ok none) →
      (processPlace key parse now c).2 = some (mkRestaurant v none)) ∧
    (∀ (parse : String → Except String GeminiAnalysis) (now : Int) (c : Candidate),
      (∀ m, c.geminiResp = .error m → geminiStage parse now c = ([], none)) ∧
      (∀ gd cand rest t ts m, c.geminiResp = .ok gd →
        gd.candidates = cand :: rest → cand.parts = t :: ts →
        parse (cleanJson t) = .error m → geminiStage parse now c = ([], none))) := by
  refine ⟨?_, ?_, ?_, ?_, ?_, ?_⟩
  · intro env pd coords hg hm hres hp hst
    have hro : resolveLocation env.req.location env.geocodeResp =
        ((resolveLocation env.req.location env.geocodeResp).1, .ok coords) := by
      rw [← hres]
    unfold handleRequest
    rw [if_neg (by simp [hg, hm]), hro, hp]
    simp only
    rw [if_pos hst]
    exact ⟨rfl, rfl⟩
  · intro key parse now l1 l2 c
    constructor
    · intro h
      simp [List.map_append, List.map_cons, List.filterMap_append,
        List.filterMap_cons, h]
    · intro r h
      simp [List.map_append, List.map_cons, List.filterMap_append,
        List.filterMap_cons, h]
  · intro key parse now c m h
    unfold processPlace processPlaceE venueStage
    rw [h]
  · intro key parse now c dr h1 h2 h3
    unfold processPlace processPlaceE venueStage
    rw [h1]
    dsimp only
    rw [h2]
    dsimp only
    rw [if_neg h3]
  · intro key parse now c v e1 e2 hv hs
    unfold processPlace processPlaceE
    rw [hv]
    dsimp only
    rw [hs]
  · intro parse now c
    constructor
    · intro m h
      unfold geminiStage
      rw [h]
    · intro gd cand rest t ts m hgr hcand hparts hparse
      unfold geminiStage
      rw [hgr]
      dsimp only
      rw [hcand]
      dsimp only
      rw [hparts]
      dsimp only
      rw [hparse]

/-- A candidate whose details fetch reports a non-success status. -/
def candBad : Candidate :=
  { place_id := "p2", name := "B", storedVenue := .ok none,
    detailsResp := .ok ⟨"NOT_FOUND", dDet⟩, venueUpsertResult := .ok (),
    storedSummary := .ok none, geminiResp := .error "unused",
    summaryUpsertResult := .ok () }

/-- A candidate whose venue-cache read rejects. -/
def candThrow : Candidate := { candBad with storedVenue := .error "boom" }

/-- An environment with one healthy candidate and one whose details fetch
fails. -/
def envDrop : ReqEnv := { envC1 with placesResp := .ok ⟨"OK", [candC1, candBad]⟩ }

/-- Witness for claim C2: with one healthy and one failing candidate the
request still succeeds with status 200 and the fan-out list, and the
failing candidates (non-OK details, rejected cache read) each map to
`none`. -/
theorem claim_C2_witness :
    ((handleRequest envDrop).2.status = 200 ∧
      (handleRequest envDrop).2.body =
        .success
          (rankedRestaurants (envDrop.req.max_price.getD 4)
            ((([candC1, candBad].take 25).map
              (processPlace envDrop.googleApiKey envDrop.parse
                envDrop.now)).filterMap Prod.snd))
          ⟨1, 2⟩
          (rankedRestaurants (envDrop.req.max_price.getD 4)
            ((([candC1, candBad].take 25).map
              (processPlace envDrop.googleApiKey envDrop.parse
                envDrop.now)).filterMap Prod.snd)).length) ∧
    (processPlace "g" noParse 2000 candBad).2 = none ∧
    (processPlace "g" noParse 2000 candThrow).2 = none :=
  ⟨claim_C2.1 envDrop ⟨"OK", [candC1, candBad]⟩ ⟨1, 2⟩
      (by with_unfolding_all decide) (by with_unfolding_all decide)
      (by with_unfolding_all rfl) rfl rfl,
    claim_C2.2.2.2.1 "g" noParse 2000 candBad ⟨"NOT_FOUND", dDet⟩ rfl rfl
      (by with_unfolding_all decide),
    claim_C2.2.2.1 "g" noParse 2000 candThrow "boom" rfl⟩

end RestaurantSearch
